import Mathlib

/-!
Shallow embedding of the sora-stream generation lifecycle controller.

The embedded program is the `useVideoGeneration` hook (the full-featured
variant found at lines 242-777 of `src/src/services/soraApi.ts`, which all
claim citations into that file point to), the `handleGenerate` validation
in `src/src/pages/Index.tsx`, and the `resizeImage` geometry of
`src/src/components/ImageUpload.tsx`.

Two levels of modelling are used:
 * atomic operations on a `Controller` (each poll tick runs to completion
   with no interleaving), used for the per-operation claims;
 * a small-step event-loop `World` in which poll ticks suspend at their
   network awaits (`fetch` status, `fetch` artifact content) and timers are
   explicit, used for the claims about cancellation and stale results.
-/

namespace SoraStream

/-- `GenerationOptions` from the hook (size, seconds, model strings). -/
structure GenOptions where
  size : String
  seconds : String
  model : String
deriving DecidableEq, Repr

/-- The default options the hook's `useState` initializer and `resetVideo` use. -/
def defaultOptions : GenOptions :=
  { size := "1280x720", seconds := "4", model := "sora-2" }

/-- `VideoState` from the hook.  The code stores `data.status` verbatim
(`status: data.status`), so `status` is modelled as a `String`, not an
enumeration. -/
structure VideoState where
  id : Option String
  status : String
  progress : Nat
  videoUrl : Option String
  prompt : String
  options : GenOptions
  referenceImage : Option String
deriving DecidableEq, Repr

/-- The initial `useState` value of the hook. -/
def initialVideoState : VideoState :=
  { id := none, status := "idle", progress := 0, videoUrl := none,
    prompt := "", options := defaultOptions, referenceImage := none }

/-- Kind of a `toast` notification. -/
inductive NoteKind
  | success
  | error
  | warning
deriving DecidableEq, Repr

/-- One `toast` notification. -/
structure Note where
  kind : NoteKind
  message : String
deriving DecidableEq, Repr

/-- Outcome of the `GET /v1/videos/id` status request of one poll tick.
`ok` carries the parsed body fields used by the code: `data.status`,
`data.progress` and `data.error.message`.  `httpError` is a non-2xx
response whose parsed error body message is `bodyMsg` (`none` when the body
could not be parsed).  `netError` is a thrown network or parse failure. -/
inductive StatusFetch
  | ok (st : String) (progress : Option Nat) (errMsg : Option String)
  | httpError (code : Nat) (bodyMsg : Option String)
  | netError (msg : String)
deriving DecidableEq, Repr

/-- Outcome of the `GET /v1/videos/id/content` artifact request.  On success
the blob is materialized as an object URL `handle`. -/
inductive ArtifactFetch
  | ok (handle : String)
  | httpError (code : Nat)
deriving DecidableEq, Repr

/-- Outcome of the `POST /v1/videos` creation request of `generateVideo`.
`httpError` carries the HTTP status, the parsed `error.code` or
`error.type`, and the resolved error message.  `imageDecodeError` is a
failure of the reference-image base64 conversion, which happens before any
network request is sent.  `netError` is a thrown network failure. -/
inductive CreateResult
  | ok (id : String)
  | httpError (code : Nat) (errCode : Option String) (errMsg : String)
  | imageDecodeError (msg : String)
  | netError (msg : String)
deriving DecidableEq, Repr

/-- `s.startsWith('blob:')`, written over the character list so that it
evaluates inside the kernel. -/
def startsWithBlob (s : String) : Bool :=
  s.data.take 5 = "blob:".data

/-- `url.startsWith('blob:')` on an optional ref cell. -/
def isBlobUrl : Option String → Bool
  | some u => startsWithBlob u
  | none => false

/-- `prompt.trim()`: strip leading and trailing whitespace, written over
the character list so that it evaluates inside the kernel. -/
def trimString (s : String) : String :=
  ⟨((s.data.dropWhile Char.isWhitespace).reverse.dropWhile
      Char.isWhitespace).reverse⟩

/-- Whether a status fetch outcome is an error (a non-2xx response or a
thrown network/parse failure). -/
def StatusFetch.isError : StatusFetch → Bool
  | .ok _ _ _ => false
  | _ => true

/-- `errorMessage.includes(pat)` from the JS code. -/
def includesSubstring (s pat : String) : Bool :=
  (s.splitOn pat).length > 1

/-- The `detailedMessage` computed by `generateVideo` for a non-ok creation
response (lines 481-499 of the source blob). -/
def detailedErrorMessage (status : Nat) (errCode : Option String)
    (errorMessage : String) : String :=
  if errCode = some "billing_hard_limit_reached" then
    "❌ OpenAIの課金制限に達しています。\n\nOpenAIダッシュボードで課金設定を確認してください:\nhttps://platform.openai.com/settings/organization/billing"
  else if status = 403 then
    if includesSubstring errorMessage "organization must be verified" then
      "❌ OpenAI組織の認証が必要です。\n\n以下のURLから組織認証を行ってください:\nhttps://platform.openai.com/settings/organization/general\n\n認証後、反映まで最大15分かかる場合があります。"
    else
      "❌ アクセスが拒否されました。\n\n" ++ errorMessage ++ "\n\nAPIキーの権限を確認してください。"
  else if status = 401 then
    "❌ APIキーが無効です。\n\n設定画面から正しいAPIキーを入力してください。"
  else if status = 429 then
    "❌ レート制限に達しました。\n\nしばらく待ってから再度お試しください。"
  else if status = 400 then
    "❌ リクエストが不正です。\n\n" ++ errorMessage ++ "\n\nプロンプトや設定を確認してください。"
  else if status ≥ 500 then
    "❌ OpenAIサーバーエラーが発生しました。\n\n" ++ errorMessage ++ "\n\nしばらく待ってから再度お試しください。"
  else errorMessage

/-- The message of the error thrown by a failed status fetch: the parsed
body message, or the default when the body is unparseable, or the thrown
network-error message. -/
def statusFetchErrorMsg : StatusFetch → String
  | .httpError _ (some m) => m
  | .httpError _ none => "ステータス確認に失敗しました"
  | .netError m => m
  | .ok _ _ _ => ""

/-- Controller runtime state: the `video` React state, the
`pollingTimeoutRef` cell (modelled as the id whose next poll tick is
pending, covering both the `setTimeout` schedule and the directly invoked
`poll()` continuation, which are equivalent in the atomic model), and the
`currentVideoUrlRef` cell. -/
structure Controller where
  video : VideoState
  pollPending : Option String
  currentVideoUrl : Option String
deriving DecidableEq, Repr

/-- The controller as the hook mounts it. -/
def initialController : Controller :=
  { video := initialVideoState, pollPending := none, currentVideoUrl := none }

/-- Result of a `generateVideo` call: the new controller, the toasts
emitted, whether the creation network request was actually sent, the ids
for which a poll loop was started, and the object URLs revoked. -/
structure SubmitOut where
  ctrl : Controller
  notes : List Note
  requested : Bool
  startedPoll : List String
  revoked : List String
deriving DecidableEq, Repr

/-- `generateVideo` from the hook (lines 315-546 of the source blob):
guard on a missing API key, cancel the pending poll schedule, revoke the
previous blob URL, reset the state to a fresh `queued` generation, send the
creation request, and on success store the id and start polling.  All
failure paths after the state reset end in `status = 'failed'`. -/
def generateVideo (apiKey : Option String) (prompt : String)
    (options : GenOptions) (referenceImage : Option String)
    (res : CreateResult) (c : Controller) : SubmitOut :=
  match apiKey with
  | none =>
      { ctrl := c, notes := [⟨.error, "APIキーが設定されていません"⟩],
        requested := false, startedPoll := [], revoked := [] }
  | some _ =>
      let revoked := match c.currentVideoUrl with
        | some u => if startsWithBlob u then [u] else []
        | none => []
      let urlRef := if isBlobUrl c.currentVideoUrl then none else c.currentVideoUrl
      let fresh : VideoState :=
        { id := none, status := "queued", progress := 0, videoUrl := none,
          prompt := prompt, options := options,
          referenceImage := referenceImage }
      let c1 : Controller :=
        { video := fresh, pollPending := none, currentVideoUrl := urlRef }
      match res with
      | .ok vid =>
          { ctrl := { c1 with
              video := { fresh with id := some vid, status := "queued" }
              pollPending := some vid },
            notes := [⟨.success, "動画生成を開始しました"⟩],
            requested := true, startedPoll := [vid], revoked := revoked }
      | .httpError code errCode errMsg =>
          { ctrl := { c1 with video := { fresh with status := "failed" } },
            notes := [⟨.error, detailedErrorMessage code errCode errMsg⟩],
            requested := true, startedPoll := [], revoked := revoked }
      | .imageDecodeError msg =>
          { ctrl := { c1 with video := { fresh with status := "failed" } },
            notes := [⟨.error, "参照画像エラー: " ++ msg⟩, ⟨.error, msg⟩],
            requested := false, startedPoll := [], revoked := revoked }
      | .netError msg =>
          { ctrl := { c1 with video := { fresh with status := "failed" } },
            notes := [⟨.error, msg⟩],
            requested := true, startedPoll := [], revoked := revoked }

/-- Result of one complete poll tick: the new controller, the toasts, the
ids whose `/content` endpoint was fetched, and the poll ticks newly
scheduled by this tick. -/
structure TickOut where
  ctrl : Controller
  notes : List Note
  artifactFetches : List String
  scheduled : List String
deriving DecidableEq, Repr

/-- One complete poll tick of `pollVideoStatus` (lines 548-664 of the
source blob), with the status fetch and, in the `completed` branch, the
artifact fetch supplied as oracles.  A failed status fetch throws; the
catch toasts, sets `status := 'failed'` and clears `pollingTimeoutRef`.
A successful fetch stores `data.status` verbatim and `data.progress || 0`;
`completed` triggers exactly one artifact fetch (success sets the object
URL, failure sets `failed`); `failed` surfaces the remote error; every
other status schedules exactly one further tick. -/
def pollTick (videoId : String) (sres : StatusFetch) (ares : ArtifactFetch)
    (c : Controller) : TickOut :=
  match sres with
  | .ok st pr errMsg =>
      let v1 := { c.video with status := st, progress := pr.getD 0 }
      let c1 := { c with video := v1 }
      if st = "completed" then
        match ares with
        | .ok handle =>
            { ctrl := { c1 with
                video := { v1 with videoUrl := some handle }
                currentVideoUrl := some handle },
              notes := [⟨.success, "動画生成が完了しました！"⟩],
              artifactFetches := [videoId], scheduled := [] }
        | .httpError code =>
            { ctrl := { c1 with video := { v1 with status := "failed" } },
              notes := [⟨.error, "動画の取得に失敗しました: " ++
                ("動画コンテンツ取得失敗: " ++ toString code)⟩],
              artifactFetches := [videoId], scheduled := [] }
      else if st = "failed" then
        { ctrl := c1,
          notes := [⟨.error, "動画生成失敗: " ++
            (errMsg.getD "動画生成に失敗しました")⟩],
          artifactFetches := [], scheduled := [] }
      else
        { ctrl := { c1 with pollPending := some videoId },
          notes := [], artifactFetches := [], scheduled := [videoId] }
  | e =>
      { ctrl := { c with
          video := { c.video with status := "failed" }
          pollPending := none },
        notes := [⟨.error, "ステータス確認エラー: " ++ statusFetchErrorMsg e⟩],
        artifactFetches := [], scheduled := [] }

/-- Result of a `downloadVideo` call: the toasts and the href handed to the
synthesized anchor's save-as click (`none` when no click happened).  The
function never touches the controller state. -/
structure DownloadOut where
  notes : List Note
  saveAs : Option String
deriving DecidableEq, Repr

/-- `downloadVideo` from the hook (lines 666-694 of the source blob). -/
def downloadVideo (c : Controller) : DownloadOut :=
  match c.video.videoUrl with
  | none => { notes := [⟨.error, "ダウンロードする動画がありません"⟩], saveAs := none }
  | some url =>
      { notes := [⟨.success, "動画をダウンロードしました"⟩], saveAs := some url }

/-- `updateOptions` from the hook (lines 696-714 of the source blob): the
`shouldClearImage` parameter defaults to `true` at the call sites. -/
def updateOptions (options : GenOptions) (shouldClearImage : Bool)
    (v : VideoState) : VideoState × List Note :=
  let sizeChanged := v.options.size ≠ options.size
  let notes : List Note :=
    if sizeChanged ∧ shouldClearImage ∧ v.referenceImage ≠ none then
      [⟨.warning, "解像度が変更されました。参照画像を再度アップロードしてください。"⟩]
    else []
  ({ v with
      options := options
      referenceImage :=
        if sizeChanged ∧ shouldClearImage then none else v.referenceImage },
   notes)

/-- `setReferenceImage` from the hook (lines 716-727 of the source blob). -/
def setReferenceImage (imageData : Option String) (v : VideoState) : VideoState :=
  { v with referenceImage := imageData }

/-- Result of `resetVideo`: the new controller and the object URLs revoked. -/
structure ResetOut where
  ctrl : Controller
  revoked : List String
deriving DecidableEq, Repr

/-- `resetVideo` from the hook (lines 729-765 of the source blob): clears
the pending poll schedule, revokes the held blob URL, and restores the
initial state. -/
def resetVideo (c : Controller) : ResetOut :=
  let revoked := match c.currentVideoUrl with
    | some u => if startsWithBlob u then [u] else []
    | none => []
  { ctrl :=
      { video := initialVideoState, pollPending := none,
        currentVideoUrl := if isBlobUrl c.currentVideoUrl then none else c.currentVideoUrl },
    revoked := revoked }

/-- Result of the `handleGenerate` click handler: the toasts, whether the
settings modal was opened, and the arguments passed on to `generateVideo`
(`none` when validation rejected the submission). -/
structure UIOut where
  notes : List Note
  settingsOpened : Bool
  submitted : Option (String × GenOptions × Option String)
deriving DecidableEq, Repr

/-- `handleGenerate` from `src/src/pages/Index.tsx` (lines 34-69): the
pre-submission validation of credential presence, non-blank prompt and the
500-character limit.  It reads but never writes the generation state. -/
def handleGenerate (apiKey : Option String) (prompt : String)
    (v : VideoState) : UIOut :=
  if apiKey = none then
    { notes := [⟨.error, "APIキーを設定してください"⟩],
      settingsOpened := true, submitted := none }
  else if trimString prompt = "" then
    { notes := [⟨.error, "プロンプトを入力してください"⟩],
      settingsOpened := false, submitted := none }
  else if prompt.length > 500 then
    { notes := [⟨.error, "プロンプトは500文字以内にしてください"⟩],
      settingsOpened := false, submitted := none }
  else
    { notes := [], settingsOpened := false,
      submitted := some (prompt, v.options, v.referenceImage) }

/-- An atomic controller operation, for reachability statements.  A tick
only runs when it is the pending one for its id (in the atomic model the
poll loop is strictly sequential). -/
inductive AtomicOp
  | submit (apiKey : Option String) (prompt : String) (options : GenOptions)
      (referenceImage : Option String) (res : CreateResult)
  | tick (id : String) (sres : StatusFetch) (ares : ArtifactFetch)
  | download
  | update (options : GenOptions) (shouldClearImage : Bool)
  | setRef (imageData : Option String)
  | reset
deriving DecidableEq, Repr

/-- Apply one atomic operation to the controller. -/
def applyOp (o : AtomicOp) (c : Controller) : Controller :=
  match o with
  | .submit key prompt options rimg res =>
      (generateVideo key prompt options rimg res c).ctrl
  | .tick id sres ares =>
      if c.pollPending = some id then
        (pollTick id sres ares { c with pollPending := none }).ctrl
      else c
  | .download => c
  | .update options shouldClearImage =>
      { c with video := (updateOptions options shouldClearImage c.video).1 }
  | .setRef imageData => { c with video := setReferenceImage imageData c.video }
  | .reset => (resetVideo c).ctrl

/-- Run a list of atomic operations from a controller. -/
def runOps (ops : List AtomicOp) (c : Controller) : Controller :=
  ops.foldl (fun c o => applyOp o c) c

/-- The geometry computed by `resizeImage` in
`src/src/components/ImageUpload.tsx` (lines 161-213): the canvas takes the
target dimensions, `scale = max(targetW/W, targetH/H)`, and the scaled
image is drawn centered. -/
structure ResizeGeometry where
  canvasW : ℚ
  canvasH : ℚ
  scale : ℚ
  drawX : ℚ
  drawY : ℚ
  drawW : ℚ
  drawH : ℚ
deriving DecidableEq, Repr

/-- The geometry of `resizeImage` for a source of decoded dimensions
`(w, h)` and a target `(tw, th)`. -/
def resizeGeometry (w h tw th : ℚ) : ResizeGeometry :=
  let scale := max (tw / w) (th / h)
  let scaledWidth := w * scale
  let scaledHeight := h * scale
  { canvasW := tw, canvasH := th, scale := scale,
    drawX := (tw - scaledWidth) / 2, drawY := (th - scaledHeight) / 2,
    drawW := scaledWidth, drawH := scaledHeight }

/-- The drawn image leaves some strip of the black-filled canvas visible
(letterboxing): the drawn rectangle does not cover the whole canvas. -/
def hasLetterbox (g : ResizeGeometry) : Prop :=
  0 < g.drawX ∨ 0 < g.drawY ∨
  g.drawX + g.drawW < g.canvasW ∨ g.drawY + g.drawH < g.canvasH

instance (g : ResizeGeometry) : Decidable (hasLetterbox g) := by
  unfold hasLetterbox; infer_instance

/-- Suspension point of an in-flight poll tick: waiting on the status fetch,
or (after a `completed` status was already stored) waiting on the artifact
content fetch. -/
inductive Phase
  | awaitingStatus
  | awaitingArtifact
deriving DecidableEq, Repr

/-- Event-loop world for the interleaved semantics.  `timers` are the live
`setTimeout` callbacks (handle, videoId); `pollRef` is `pollingTimeoutRef`
(the handle `clearTimeout` would cancel: overwriting the ref orphans a
timer without cancelling it, as in the source); `tasks` are poll ticks that
have started executing and are suspended at a network await; `log` records,
for every state write performed by a poll task, the videoId the write is
attributable to. -/
structure World where
  ctrl : VideoState
  timers : List (Nat × String)
  pollRef : Option Nat
  urlRef : Option String
  tasks : List (String × Phase)
  nextHandle : Nat
  log : List String
deriving DecidableEq, Repr

/-- The world right after the hook mounts. -/
def initialWorld : World :=
  { ctrl := initialVideoState, timers := [], pollRef := none, urlRef := none,
    tasks := [], nextHandle := 0, log := [] }

/-- Events of the interleaved semantics.  `submit` runs `generateVideo` up
to and including the start of the new poll loop (its create request is
modelled atomically); `fireTimer` is the event loop firing a pending
`setTimeout`; `resolveStatus` and `resolveArtifact` resume the `i`-th
in-flight tick with its network result. -/
inductive Event
  | submit (apiKey : Option String) (prompt : String) (options : GenOptions)
      (referenceImage : Option String) (res : CreateResult)
  | fireTimer (handle : Nat)
  | resolveStatus (i : Nat) (sres : StatusFetch)
  | resolveArtifact (i : Nat) (ares : ArtifactFetch)
  | download
  | update (options : GenOptions) (shouldClearImage : Bool)
  | setRef (imageData : Option String)
  | reset
deriving DecidableEq, Repr

/-- Whether an event is a `submit`. -/
def Event.isSubmit : Event → Bool
  | .submit _ _ _ _ _ => true
  | _ => false

/-- Remove the timer `clearTimeout(pollingTimeoutRef.current)` cancels. -/
def clearRefTimer (w : World) : List (Nat × String) :=
  match w.pollRef with
  | some h => w.timers.filter (fun t => t.1 ≠ h)
  | none => w.timers

/-- One step of the event-loop semantics.  Events whose precondition does
not hold (a dead timer handle, an index that is not a task in the right
phase) are no-ops. -/
def step (e : Event) (w : World) : World :=
  match e with
  | .submit apiKey prompt options referenceImage res =>
      match apiKey with
      | none => w
      | some _ =>
          let timers1 := clearRefTimer w
          let urlRef1 := if isBlobUrl w.urlRef then none else w.urlRef
          let fresh : VideoState :=
            { id := none, status := "queued", progress := 0, videoUrl := none,
              prompt := prompt, options := options,
              referenceImage := referenceImage }
          match res with
          | .ok vid =>
              { w with
                ctrl := { fresh with id := some vid, status := "queued" }
                timers := timers1
                pollRef := none
                urlRef := urlRef1
                tasks := w.tasks ++ [(vid, .awaitingStatus)] }
          | _ =>
              { w with
                ctrl := { fresh with status := "failed" }
                timers := timers1
                pollRef := none
                urlRef := urlRef1 }
  | .fireTimer handle =>
      match w.timers.find? (fun t => t.1 = handle) with
      | some t =>
          { w with
            timers := w.timers.filter (fun q => q.1 ≠ handle)
            tasks := w.tasks ++ [(t.2, .awaitingStatus)] }
      | none => w
  | .resolveStatus i sres =>
      match w.tasks[i]? with
      | some (vid, .awaitingStatus) =>
          let tasks1 := w.tasks.eraseIdx i
          match sres with
          | .ok st pr _ =>
              let ctrl1 := { w.ctrl with status := st, progress := pr.getD 0 }
              if st = "completed" then
                { w with
                  ctrl := ctrl1
                  tasks := tasks1 ++ [(vid, .awaitingArtifact)]
                  log := w.log ++ [vid] }
              else if st = "failed" then
                { w with ctrl := ctrl1, tasks := tasks1, log := w.log ++ [vid] }
              else
                { w with
                  ctrl := ctrl1
                  tasks := tasks1
                  timers := w.timers ++ [(w.nextHandle, vid)]
                  pollRef := some w.nextHandle
                  nextHandle := w.nextHandle + 1
                  log := w.log ++ [vid] }
          | _ =>
              { w with
                ctrl := { w.ctrl with status := "failed" }
                tasks := tasks1
                timers := clearRefTimer w
                pollRef := none
                log := w.log ++ [vid] }
      | _ => w
  | .resolveArtifact i ares =>
      match w.tasks[i]? with
      | some (vid, .awaitingArtifact) =>
          let tasks1 := w.tasks.eraseIdx i
          match ares with
          | .ok handle =>
              { w with
                ctrl := { w.ctrl with videoUrl := some handle }
                urlRef := some handle
                tasks := tasks1
                log := w.log ++ [vid] }
          | .httpError _ =>
              { w with
                ctrl := { w.ctrl with status := "failed" }
                tasks := tasks1
                log := w.log ++ [vid] }
      | _ => w
  | .download => w
  | .update options shouldClearImage =>
      { w with ctrl := (updateOptions options shouldClearImage w.ctrl).1 }
  | .setRef imageData =>
      { w with ctrl := setReferenceImage imageData w.ctrl }
  | .reset =>
      { w with
        ctrl := initialVideoState
        timers := clearRefTimer w
        pollRef := none
        urlRef := if isBlobUrl w.urlRef then none else w.urlRef }

/-- Run a trace of events from a world. -/
def runTrace (evts : List Event) (w : World) : World :=
  evts.foldl (fun w e => step e w) w

/-- No poll activity of any generation is outstanding, beyond at most the
timers the poll ref points to: no tick is in flight, and every live timer
is the one `clearTimeout(pollingTimeoutRef.current)` would cancel. -/
def Quiescent (w : World) : Prop :=
  w.tasks = [] ∧ ∀ t ∈ w.timers, w.pollRef = some t.1

/-- Every poll task and every pending timer of the world belongs to the
generation `vid`. -/
def OnlyGen (vid : String) (w : World) : Prop :=
  (∀ p ∈ w.tasks, p.1 = vid) ∧ (∀ q ∈ w.timers, q.2 = vid)

/-- A sequence of poll ticks for generation `id`, each reporting the given
(status, progress) pair (the artifact oracle is irrelevant for
non-`completed` reports). -/
def pollOps (id : String) (mids : List (String × Nat)) : List AtomicOp :=
  mids.map (fun p => .tick id (.ok p.1 (some p.2) none) (.httpError 0))

/-- The artifact-handle invariant together with the auxiliary fact that
makes it inductive: when a handle is held the generation is `completed`
and no poll tick is pending. -/
def urlInv (c : Controller) : Prop :=
  c.video.videoUrl ≠ none →
    c.video.status = "completed" ∧ c.pollPending = none

/-- C3: a poll tick whose status fetch fails (any non-2xx response such as
HTTP 401, or a network/parse error) sets the generation to `failed`,
surfaces the fetched error message (the server's own message in the 401
case), clears the poll schedule, schedules no further tick, and leaves a
controller on which every subsequent tick operation is a no-op. -/
theorem c3_poll_error_fails_and_stops (c : Controller) (id : String)
    (ares : ArtifactFetch) (sres : StatusFetch)
    (herr : sres.isError = true) :
    (pollTick id sres ares c).ctrl.video.status = "failed" ∧
    (pollTick id sres ares c).ctrl.pollPending = none ∧
    (pollTick id sres ares c).scheduled = [] ∧
    (pollTick id sres ares c).artifactFetches = [] ∧
    (pollTick id sres ares c).notes =
      [⟨.error, "ステータス確認エラー: " ++ statusFetchErrorMsg sres⟩] ∧
    (∀ code m, sres = .httpError code (some m) →
      (pollTick id sres ares c).notes = [⟨.error, "ステータス確認エラー: " ++ m⟩]) ∧
    (∀ id2 sres2 ares2,
      applyOp (.tick id2 sres2 ares2) (pollTick id sres ares c).ctrl =
        (pollTick id sres ares c).ctrl) := by
  cases sres with
  | ok st pr em => exact absurd herr (by simp [StatusFetch.isError])
  | httpError code body =>
      refine ⟨rfl, rfl, rfl, rfl, rfl, ?_, ?_⟩
      · intro code2 m hm
        cases hm
        rfl
      · intro id2 sres2 ares2
        simp [applyOp, pollTick]
  | netError m =>
      refine ⟨rfl, rfl, rfl, rfl, rfl, ?_, ?_⟩
      · intro code2 m2 hm
        cases hm
      · intro id2 sres2 ares2
        simp [applyOp, pollTick]

/-- Witness for C3 at a concrete 401 response. -/
theorem c3_poll_error_fails_and_stops_witness :
    (StatusFetch.httpError 401 (some "Incorrect API key provided")).isError
        = true ∧
    (pollTick "v1" (.httpError 401 (some "Incorrect API key provided"))
        (.httpError 401) initialController).ctrl.video.status = "failed" := by
  refine ⟨rfl, ?_⟩
  exact (c3_poll_error_fails_and_stops initialController "v1" (.httpError 401)
    (.httpError 401 (some "Incorrect API key provided")) rfl).1

/-- C6: when the resolution component of the options changes while a
reference image is held, `updateOptions` (with the default
`shouldClearImage = true`) replaces the options, clears the reference
image, and emits exactly one advisory warning; when the caller opts out
with `shouldClearImage = false`, the options are replaced, the image is
kept and nothing is emitted. -/
theorem c6_update_options_size_change (v : VideoState) (opts : GenOptions)
    (hsize : v.options.size ≠ opts.size) (himg : v.referenceImage ≠ none) :
    updateOptions opts true v =
      ({ v with options := opts, referenceImage := none },
       [⟨.warning, "解像度が変更されました。参照画像を再度アップロードしてください。"⟩]) ∧
    updateOptions opts false v =
      ({ v with options := opts }, []) := by
  constructor
  · simp [updateOptions, hsize, himg]
  · simp [updateOptions]

/-- Witness for C6 at a concrete size change with an image held. -/
theorem c6_update_options_size_change_witness :
    ({ initialVideoState with referenceImage := some "data:image/png" } :
        VideoState).options.size ≠
      (GenOptions.mk "720x1280" "4" "sora-2").size ∧
    (updateOptions (GenOptions.mk "720x1280" "4" "sora-2") true
      { initialVideoState with
          referenceImage := some "data:image/png" }).1.referenceImage = none := by
  refine ⟨by decide, ?_⟩
  exact congrArg (fun v => v.referenceImage) (congrArg Prod.fst
    ((c6_update_options_size_change
      { initialVideoState with referenceImage := some "data:image/png" }
      (GenOptions.mk "720x1280" "4" "sora-2")
      (by decide) (by decide)).1))

/-- C8: `resetVideo`, from any controller state, clears the pending poll
schedule, restores the initial state (status `idle`, default options,
empty prompt, no reference image, no artifact handle), and revokes any
held blob artifact handle. -/
theorem c8_reset_restores_initial (c : Controller) :
    (resetVideo c).ctrl.video = initialVideoState ∧
    (resetVideo c).ctrl.pollPending = none ∧
    initialVideoState.status = "idle" ∧
    initialVideoState.options = defaultOptions ∧
    initialVideoState.prompt = "" ∧
    initialVideoState.referenceImage = none ∧
    initialVideoState.videoUrl = none ∧
    (∀ u, c.currentVideoUrl = some u → startsWithBlob u = true →
      (resetVideo c).revoked = [u] ∧ (resetVideo c).ctrl.currentVideoUrl = none) := by
  refine ⟨rfl, rfl, rfl, rfl, rfl, rfl, rfl, ?_⟩
  intro u hu hblob
  simp [resetVideo, isBlobUrl, hu, hblob]

/-- Witness for C8 at a controller holding a blob artifact handle. -/
theorem c8_reset_restores_initial_witness :
    ({ video := { initialVideoState with status := "completed" }
       pollPending := some "v1"
       currentVideoUrl := some "blob:abc" } : Controller).currentVideoUrl =
        some "blob:abc" ∧
    startsWithBlob "blob:abc" = true ∧
    (resetVideo { video := { initialVideoState with status := "completed" }
                  pollPending := some "v1"
                  currentVideoUrl := some "blob:abc" }).revoked = ["blob:abc"] := by
  refine ⟨rfl, by decide, ?_⟩
  exact ((c8_reset_restores_initial
    { video := { initialVideoState with status := "completed" }
      pollPending := some "v1"
      currentVideoUrl := some "blob:abc" }).2.2.2.2.2.2.2
    "blob:abc" rfl (by decide)).1

/-- C9: `downloadVideo` with no materialized artifact handle emits a single
error notification and triggers no save-as action; with a handle present
it triggers the save-as on the handle; in both cases the controller state
is untouched. -/
theorem c9_download_requires_artifact (c : Controller) :
    (c.video.videoUrl = none →
      downloadVideo c =
        { notes := [⟨.error, "ダウンロードする動画がありません"⟩], saveAs := none }) ∧
    (∀ u, c.video.videoUrl = some u →
      downloadVideo c =
        { notes := [⟨.success, "動画をダウンロードしました"⟩], saveAs := some u }) ∧
    applyOp .download c = c := by
  refine ⟨?_, ?_, rfl⟩
  · intro hu
    simp [downloadVideo, hu]
  · intro u hu
    simp [downloadVideo, hu]

/-- Witness for C9 at the initial controller, which holds no artifact. -/
theorem c9_download_requires_artifact_witness :
    initialController.video.videoUrl = none ∧
    (downloadVideo initialController).saveAs = none := by
  refine ⟨rfl, ?_⟩
  exact congrArg DownloadOut.saveAs
    ((c9_download_requires_artifact initialController).1 rfl)

/-- C10: a successful poll tick whose reported status is neither
`completed` nor `failed` — including strings outside the declared status
enumeration — stores the reported status verbatim and schedules exactly
one further tick; terminal reports and fetch errors schedule none. -/
theorem c10_nonterminal_status_verbatim (c : Controller) (id st : String)
    (pr : Option Nat) (em : Option String) (ares : ArtifactFetch)
    (code : Nat) (body : Option String) (m : String)
    (h1 : st ≠ "completed") (h2 : st ≠ "failed") :
    (pollTick id (.ok st pr em) ares c).ctrl.video.status = st ∧
    (pollTick id (.ok st pr em) ares c).scheduled = [id] ∧
    (pollTick id (.ok st pr em) ares c).ctrl.pollPending = some id ∧
    (pollTick id (.ok st pr em) ares c).artifactFetches = [] ∧
    (pollTick id (.ok "completed" pr em) ares c).scheduled = [] ∧
    (pollTick id (.ok "failed" pr em) ares c).scheduled = [] ∧
    (pollTick id (.httpError code body) ares c).scheduled = [] ∧
    (pollTick id (.netError m) ares c).scheduled = [] := by
  refine ⟨?_, ?_, ?_, ?_, ?_, ?_, rfl, rfl⟩
  · simp [pollTick, h1, h2]
  · simp [pollTick, h1, h2]
  · simp [pollTick, h1, h2]
  · simp [pollTick, h1, h2]
  · cases ares <;> simp [pollTick]
  · simp [pollTick]

/-- The poll loop survives any run of non-terminal ticks: the same id stays
pending and the artifact handle is untouched. -/
theorem pollOps_preserves (id : String) (mids : List (String × Nat)) :
    ∀ c : Controller, c.pollPending = some id →
      (∀ p ∈ mids, p.1 ≠ "completed" ∧ p.1 ≠ "failed") →
      (runOps (pollOps id mids) c).pollPending = some id ∧
      (runOps (pollOps id mids) c).video.videoUrl = c.video.videoUrl := by
  induction mids with
  | nil =>
      intro c hc _
      exact ⟨hc, rfl⟩
  | cons p rest ih =>
      intro c hc hmid
      obtain ⟨h1, h2⟩ := hmid p (by simp)
      have hpend :
          (applyOp (.tick id (.ok p.1 (some p.2) none) (.httpError 0)) c).pollPending
            = some id := by
        simp [applyOp, hc, pollTick, h1, h2]
      have hurl :
          (applyOp (.tick id (.ok p.1 (some p.2) none) (.httpError 0)) c).video.videoUrl
            = c.video.videoUrl := by
        simp [applyOp, hc, pollTick, h1, h2]
      have hrest := ih (applyOp (.tick id (.ok p.1 (some p.2) none) (.httpError 0)) c)
        hpend (fun q hq => hmid q (by simp [hq]))
      exact ⟨hrest.1, hrest.2.trans hurl⟩

/-- C4: a poll tick reporting `completed` performs exactly one artifact
fetch; on success the state is `completed` with the handle set, on failure
it is `failed` with the handle still absent.  In particular a submit
followed by any run of non-terminal poll ticks and a final tick reporting
`completed` with a successful artifact fetch ends `completed` with a
non-null handle, and the final tick was indeed the pending one. -/
theorem c4_completed_tick_artifact (c : Controller) (id : String)
    (pr : Option Nat) (em : Option String) (h : String) (code : Nat)
    (key prompt : String) (opts : GenOptions) (mids : List (String × Nat))
    (pr2 : Nat)
    (hmid : ∀ p ∈ mids, p.1 ≠ "completed" ∧ p.1 ≠ "failed") :
    (pollTick id (.ok "completed" pr em) (.ok h) c).artifactFetches = [id] ∧
    (pollTick id (.ok "completed" pr em) (.ok h) c).ctrl.video.status =
      "completed" ∧
    (pollTick id (.ok "completed" pr em) (.ok h) c).ctrl.video.videoUrl =
      some h ∧
    (pollTick id (.ok "completed" pr em) (.httpError code) c).artifactFetches =
      [id] ∧
    (pollTick id (.ok "completed" pr em) (.httpError code) c).ctrl.video.status =
      "failed" ∧
    (c.video.videoUrl = none →
      (pollTick id (.ok "completed" pr em) (.httpError code) c).ctrl.video.videoUrl
        = none) ∧
    ((runOps (pollOps id mids)
        (applyOp (.submit (some key) prompt opts none (.ok id))
          initialController)).pollPending = some id ∧
      (pollTick id (.ok "completed" (some pr2) none) (.ok h)
        (runOps (pollOps id mids)
          (applyOp (.submit (some key) prompt opts none (.ok id))
            initialController))).ctrl.video.status = "completed" ∧
      (pollTick id (.ok "completed" (some pr2) none) (.ok h)
        (runOps (pollOps id mids)
          (applyOp (.submit (some key) prompt opts none (.ok id))
            initialController))).ctrl.video.videoUrl = some h) := by
  have hsub : (applyOp (.submit (some key) prompt opts none (.ok id))
      initialController).pollPending = some id := rfl
  have hrun := pollOps_preserves id mids
    (applyOp (.submit (some key) prompt opts none (.ok id)) initialController)
    hsub hmid
  refine ⟨?_, ?_, ?_, ?_, ?_, ?_, hrun.1, ?_, ?_⟩
  · simp [pollTick]
  · simp [pollTick]
  · simp [pollTick]
  · simp [pollTick]
  · simp [pollTick]
  · intro hu
    simp [pollTick, hu]
  · simp [pollTick]
  · simp [pollTick]

/-- Witness for C4 at a concrete submit, one in-progress tick, and a
completed tick with a successful artifact fetch. -/
theorem c4_completed_tick_artifact_witness :
    (∀ p ∈ [("in_progress", 40)],
      Prod.fst p ≠ "completed" ∧ Prod.fst p ≠ "failed") ∧
    (pollTick "v1" (.ok "completed" (some 100) none) (.ok "blob:h")
      (runOps (pollOps "v1" [("in_progress", 40)])
        (applyOp (.submit (some "sk-key") "a red ball bouncing" defaultOptions
          none (.ok "v1")) initialController))).ctrl.video.videoUrl =
      some "blob:h" := by
  refine ⟨by decide, ?_⟩
  exact (c4_completed_tick_artifact initialController "v1" none none "blob:h"
    0 "sk-key" "a red ball bouncing" defaultOptions [("in_progress", 40)] 100
    (by decide)).2.2.2.2.2.2.2.2

/-- C5: a submit attempt rejected by pre-submission validation — missing
credential, blank prompt, or prompt over 500 characters — passes nothing
to `generateVideo`, emits exactly one error notification, and (for the
controller-level credential guard) sends no network request and leaves the
controller state entirely unchanged. -/
theorem c5_validation_rejects (key : Option String) (prompt : String)
    (v : VideoState) (c : Controller) (opts : GenOptions)
    (rimg : Option String) (res : CreateResult)
    (hrej : key = none ∨ trimString prompt = "" ∨ prompt.length > 500) :
    (handleGenerate key prompt v).submitted = none ∧
    (handleGenerate key prompt v).notes.length = 1 ∧
    (∀ n ∈ (handleGenerate key prompt v).notes, n.kind = .error) ∧
    (generateVideo none prompt opts rimg res c).ctrl = c ∧
    (generateVideo none prompt opts rimg res c).requested = false ∧
    (generateVideo none prompt opts rimg res c).notes =
      [⟨.error, "APIキーが設定されていません"⟩] := by
  have hui : (handleGenerate key prompt v).submitted = none ∧
      (handleGenerate key prompt v).notes.length = 1 ∧
      (∀ n ∈ (handleGenerate key prompt v).notes, n.kind = .error) := by
    by_cases hk : key = none
    · simp [handleGenerate, hk]
    · by_cases ht : trimString prompt = ""
      · simp [handleGenerate, hk, ht]
      · by_cases hl : prompt.length > 500
        · simp [handleGenerate, hk, ht, hl]
        · rcases hrej with hr | hr | hr
          · exact absurd hr hk
          · exact absurd hr ht
          · exact absurd hr hl
  exact ⟨hui.1, hui.2.1, hui.2.2, rfl, rfl, rfl⟩

/-- Witness for C5 at a whitespace-only prompt with a credential present. -/
theorem c5_validation_rejects_witness :
    ((some "sk-key" : Option String) = none ∨ trimString "   " = "" ∨
      ("   " : String).length > 500) ∧
    (handleGenerate (some "sk-key") "   " initialVideoState).submitted =
      none := by
  refine ⟨Or.inr (Or.inl (by decide)), ?_⟩
  exact (c5_validation_rejects (some "sk-key") "   " initialVideoState
    initialController defaultOptions none (.ok "v1")
    (Or.inr (Or.inl (by decide)))).1

/-- Every atomic operation preserves the artifact-handle invariant. -/
theorem urlInv_applyOp (o : AtomicOp) (c : Controller) (h : urlInv c) :
    urlInv (applyOp o c) := by
  have hnone : ∀ vid, c.pollPending = some vid → c.video.videoUrl = none := by
    intro vid hp
    by_contra hu
    have := (h hu).2
    rw [hp] at this
    cases this
  cases o with
  | submit key prompt opts rimg res =>
      cases key with
      | none => exact h
      | some k => cases res <;> simp [applyOp, generateVideo, urlInv]
  | tick id sres ares =>
      by_cases hp : c.pollPending = some id
      · have hu : c.video.videoUrl = none := hnone id hp
        cases sres with
        | ok st pr em =>
            by_cases hst : st = "completed"
            · cases ares with
              | ok handle => simp [applyOp, hp, pollTick, hst, urlInv]
              | httpError code2 => simp [applyOp, hp, pollTick, hst, urlInv, hu]
            · by_cases hst2 : st = "failed"
              · simp [applyOp, hp, pollTick, hst, hst2, urlInv, hu]
              · simp [applyOp, hp, pollTick, hst, hst2, urlInv, hu]
        | httpError code2 body => simp [applyOp, hp, pollTick, urlInv, hu]
        | netError m => simp [applyOp, hp, pollTick, urlInv, hu]
      · simpa [applyOp, hp] using h
  | download => exact h
  | update opts sc =>
      intro hu
      have hu0 : c.video.videoUrl ≠ none := by
        simpa [applyOp, updateOptions] using hu
      have := h hu0
      simpa [applyOp, updateOptions] using this
  | setRef img =>
      intro hu
      have hu0 : c.video.videoUrl ≠ none := by
        simpa [applyOp, setReferenceImage] using hu
      have := h hu0
      simpa [applyOp, setReferenceImage] using this
  | reset =>
      intro hu
      simp [applyOp, resetVideo, initialVideoState] at hu

/-- The artifact-handle invariant holds along every run of atomic
operations. -/
theorem urlInv_runOps (ops : List AtomicOp) :
    ∀ c : Controller, urlInv c → urlInv (runOps ops c) := by
  induction ops with
  | nil => intro c h; exact h
  | cons o rest ih => intro c h; exact ih (applyOp o c) (urlInv_applyOp o c h)

/-- C2 (amended): in every controller state reachable by atomic operations
— each poll tick, including its artifact fetch, running to completion with
no submit or reset interposed mid-tick — the artifact handle is non-null
only if the status is `completed`.  (The unrestricted claim fails: see the
counterexample, where an artifact fetch resolving after a new submit sets
the handle while the new generation is still `queued`.) -/
theorem c2_artifact_only_when_completed (ops : List AtomicOp)
    (hu : (runOps ops initialController).video.videoUrl ≠ none) :
    (runOps ops initialController).video.status = "completed" :=
  (urlInv_runOps ops initialController (fun hn => absurd rfl hn) hu).1

/-- Witness for C2 (amended) at a submit followed by a completed tick. -/
theorem c2_artifact_only_when_completed_witness :
    (runOps [.submit (some "sk") "p" defaultOptions none (.ok "v1"),
        .tick "v1" (.ok "completed" (some 100) none) (.ok "blob:h")]
      initialController).video.videoUrl ≠ none ∧
    (runOps [.submit (some "sk") "p" defaultOptions none (.ok "v1"),
        .tick "v1" (.ok "completed" (some 100) none) (.ok "blob:h")]
      initialController).video.status = "completed" := by
  refine ⟨by decide, ?_⟩
  exact c2_artifact_only_when_completed
    [.submit (some "sk") "p" defaultOptions none (.ok "v1"),
      .tick "v1" (.ok "completed" (some 100) none) (.ok "blob:h")]
    (by decide)

/-- C2 (counterexample): the invariant "artifact handle non-null only if
status is completed" is not preserved by a late-resolving artifact fetch.
In the interleaved semantics: generation v1's tick reports `completed` and
suspends at the artifact fetch; a new submit starts generation v2; then
v1's artifact fetch resolves and sets the handle while the state of v2 is
still `queued`. -/
theorem c2_counterexample :
    (runTrace [.submit (some "sk") "p1" defaultOptions none (.ok "v1"),
        .resolveStatus 0 (.ok "completed" (some 100) none),
        .submit (some "sk") "p2" defaultOptions none (.ok "v2"),
        .resolveArtifact 0 (.ok "blob:old")]
      initialWorld).ctrl.videoUrl = some "blob:old" ∧
    (runTrace [.submit (some "sk") "p1" defaultOptions none (.ok "v1"),
        .resolveStatus 0 (.ok "completed" (some 100) none),
        .submit (some "sk") "p2" defaultOptions none (.ok "v2"),
        .resolveArtifact 0 (.ok "blob:old")]
      initialWorld).ctrl.status = "queued" := by
  constructor <;> rfl

/-- C1 (counterexample): a poll tick of the old generation that is already
in flight when the new submit happens is not cancelled.  After v1's tick
stored `completed` and suspended at the artifact fetch, a new submit for v2
resets the state; v1's artifact fetch then resolves and overwrites the new
generation's state (its object URL is stored while `id = v2`), a state
mutation attributable to v1 after the submit, as the write log records. -/
theorem c1_counterexample :
    (runTrace [.submit (some "sk") "p1" defaultOptions none (.ok "v1"),
        .resolveStatus 0 (.ok "completed" (some 100) none),
        .submit (some "sk") "p2" defaultOptions none (.ok "v2")]
      initialWorld).ctrl.id = some "v2" ∧
    (runTrace [.submit (some "sk") "p1" defaultOptions none (.ok "v1"),
        .resolveStatus 0 (.ok "completed" (some 100) none),
        .submit (some "sk") "p2" defaultOptions none (.ok "v2")]
      initialWorld).ctrl.videoUrl = none ∧
    (runTrace [.submit (some "sk") "p1" defaultOptions none (.ok "v1"),
        .resolveStatus 0 (.ok "completed" (some 100) none),
        .submit (some "sk") "p2" defaultOptions none (.ok "v2")]
      initialWorld).log = ["v1"] ∧
    (runTrace [.submit (some "sk") "p1" defaultOptions none (.ok "v1"),
        .resolveStatus 0 (.ok "completed" (some 100) none),
        .submit (some "sk") "p2" defaultOptions none (.ok "v2"),
        .resolveArtifact 0 (.ok "blob:old")]
      initialWorld).ctrl.id = some "v2" ∧
    (runTrace [.submit (some "sk") "p1" defaultOptions none (.ok "v1"),
        .resolveStatus 0 (.ok "completed" (some 100) none),
        .submit (some "sk") "p2" defaultOptions none (.ok "v2"),
        .resolveArtifact 0 (.ok "blob:old")]
      initialWorld).ctrl.videoUrl = some "blob:old" ∧
    (runTrace [.submit (some "sk") "p1" defaultOptions none (.ok "v1"),
        .resolveStatus 0 (.ok "completed" (some 100) none),
        .submit (some "sk") "p2" defaultOptions none (.ok "v2"),
        .resolveArtifact 0 (.ok "blob:old")]
      initialWorld).log = ["v1", "v1"] := by
  refine ⟨rfl, rfl, rfl, rfl, rfl, rfl⟩

/-- A non-submit step keeps every poll task and timer on the generation
`vid`, and any write it logs is attributable to `vid`. -/
theorem clearRefTimer_sub (w : World) (q : Nat × String)
    (hq : q ∈ clearRefTimer w) : q ∈ w.timers := by
  unfold clearRefTimer at hq
  cases hr : w.pollRef with
  | none => rw [hr] at hq; exact hq
  | some hdl =>
      rw [hr] at hq
      exact List.mem_of_mem_filter hq

theorem step_onlyGen (vid : String) (e : Event) (w : World)
    (he : e.isSubmit = false) (h : OnlyGen vid w) :
    OnlyGen vid (step e w) ∧
      ((step e w).log = w.log ∨ (step e w).log = w.log ++ [vid]) := by
  obtain ⟨htask, htimer⟩ := h
  cases e with
  | submit key prompt opts rimg res => simp [Event.isSubmit] at he
  | fireTimer handle =>
      cases hf : w.timers.find? (fun t => t.1 = handle) with
      | none =>
          have hs : step (.fireTimer handle) w = w := by
            simp only [step, hf]
          rw [hs]
          exact ⟨⟨htask, htimer⟩, Or.inl rfl⟩
      | some t =>
          have htmem : t ∈ w.timers := List.mem_of_find?_eq_some hf
          refine ⟨⟨?_, ?_⟩, Or.inl ?_⟩
          · intro p hp
            simp only [step, hf] at hp
            rcases List.mem_append.mp hp with hp | hp
            · exact htask p hp
            · rw [List.mem_singleton.mp hp]
              exact htimer t htmem
          · intro q hq
            simp only [step, hf] at hq
            exact htimer q (List.mem_of_mem_filter hq)
          · simp only [step, hf]
  | resolveStatus i sres =>
      cases hg : w.tasks[i]? with
      | none =>
          have hs : step (.resolveStatus i sres) w = w := by
            simp only [step, hg]
          rw [hs]
          exact ⟨⟨htask, htimer⟩, Or.inl rfl⟩
      | some pq =>
          obtain ⟨tvid, ph⟩ := pq
          have hvid : tvid = vid := htask (tvid, ph) (List.getElem?_mem hg)
          subst hvid
          have herase : ∀ p ∈ w.tasks.eraseIdx i, p.1 = tvid :=
            fun p hp => htask p (List.eraseIdx_subset w.tasks i hp)
          cases ph with
          | awaitingArtifact =>
              have hs : step (.resolveStatus i sres) w = w := by
                simp only [step, hg]
              rw [hs]
              exact ⟨⟨htask, htimer⟩, Or.inl rfl⟩
          | awaitingStatus =>
              cases sres with
              | ok st pr em =>
                  by_cases hst : st = "completed"
                  · refine ⟨⟨?_, ?_⟩, Or.inr ?_⟩
                    · intro p hp
                      simp only [step, hg, if_pos hst] at hp
                      rcases List.mem_append.mp hp with hp | hp
                      · exact herase p hp
                      · rw [List.mem_singleton.mp hp]
                    · intro q hq
                      simp only [step, hg, if_pos hst] at hq
                      exact htimer q hq
                    · simp only [step, hg, if_pos hst]
                  · by_cases hst2 : st = "failed"
                    · refine ⟨⟨?_, ?_⟩, Or.inr ?_⟩
                      · intro p hp
                        simp only [step, hg, if_neg hst, if_pos hst2] at hp
                        exact herase p hp
                      · intro q hq
                        simp only [step, hg, if_neg hst, if_pos hst2] at hq
                        exact htimer q hq
                      · simp only [step, hg, if_neg hst, if_pos hst2]
                    · refine ⟨⟨?_, ?_⟩, Or.inr ?_⟩
                      · intro p hp
                        simp only [step, hg, if_neg hst, if_neg hst2] at hp
                        exact herase p hp
                      · intro q hq
                        simp only [step, hg, if_neg hst, if_neg hst2] at hq
                        rcases List.mem_append.mp hq with hq2 | hq2
                        · exact htimer q hq2
                        · rw [List.mem_singleton.mp hq2]
                      · simp only [step, hg, if_neg hst, if_neg hst2]
              | httpError code body =>
                  refine ⟨⟨?_, ?_⟩, Or.inr ?_⟩
                  · intro p hp
                    simp only [step, hg] at hp
                    exact herase p hp
                  · intro q hq
                    simp only [step, hg] at hq
                    exact htimer q (clearRefTimer_sub w q hq)
                  · simp only [step, hg]
              | netError m =>
                  refine ⟨⟨?_, ?_⟩, Or.inr ?_⟩
                  · intro p hp
                    simp only [step, hg] at hp
                    exact herase p hp
                  · intro q hq
                    simp only [step, hg] at hq
                    exact htimer q (clearRefTimer_sub w q hq)
                  · simp only [step, hg]
  | resolveArtifact i ares =>
      cases hg : w.tasks[i]? with
      | none =>
          have hs : step (.resolveArtifact i ares) w = w := by
            simp only [step, hg]
          rw [hs]
          exact ⟨⟨htask, htimer⟩, Or.inl rfl⟩
      | some pq =>
          obtain ⟨tvid, ph⟩ := pq
          have hvid : tvid = vid := htask (tvid, ph) (List.getElem?_mem hg)
          subst hvid
          have herase : ∀ p ∈ w.tasks.eraseIdx i, p.1 = tvid :=
            fun p hp => htask p (List.eraseIdx_subset w.tasks i hp)
          cases ph with
          | awaitingStatus =>
              have hs : step (.resolveArtifact i ares) w = w := by
                simp only [step, hg]
              rw [hs]
              exact ⟨⟨htask, htimer⟩, Or.inl rfl⟩
          | awaitingArtifact =>
              cases ares with
              | ok handle =>
                  refine ⟨⟨?_, ?_⟩, Or.inr ?_⟩
                  · intro p hp
                    simp only [step, hg] at hp
                    exact herase p hp
                  · intro q hq
                    simp only [step, hg] at hq
                    exact htimer q hq
                  · simp only [step, hg]
              | httpError code =>
                  refine ⟨⟨?_, ?_⟩, Or.inr ?_⟩
                  · intro p hp
                    simp only [step, hg] at hp
                    exact herase p hp
                  · intro q hq
                    simp only [step, hg] at hq
                    exact htimer q hq
                  · simp only [step, hg]
  | download => exact ⟨⟨htask, htimer⟩, Or.inl rfl⟩
  | update opts sc => exact ⟨⟨htask, htimer⟩, Or.inl rfl⟩
  | setRef img => exact ⟨⟨htask, htimer⟩, Or.inl rfl⟩
  | reset =>
      refine ⟨⟨htask, ?_⟩, Or.inl rfl⟩
      intro q hq
      simp only [step] at hq
      exact htimer q (clearRefTimer_sub w q hq)

/-- Along any trace of non-submit events, every logged state write is
attributable to the single generation `vid` the world started with. -/
theorem runTrace_onlyGen (vid : String) (evts : List Event) :
    ∀ w : World, (∀ e ∈ evts, e.isSubmit = false) → OnlyGen vid w →
      OnlyGen vid (runTrace evts w) ∧
      ∃ ext, (runTrace evts w).log = w.log ++ ext ∧ ∀ x ∈ ext, x = vid := by
  induction evts with
  | nil =>
      intro w _ h
      exact ⟨h, [], by simp [runTrace], by simp⟩
  | cons e rest ih =>
      intro w hevts h
      have he : e.isSubmit = false := hevts e (by simp)
      obtain ⟨h1, hlog⟩ := step_onlyGen vid e w he h
      obtain ⟨h2, ext, hext, hall⟩ :=
        ih (step e w) (fun e2 he2 => hevts e2 (by simp [he2])) h1
      refine ⟨h2, ?_⟩
      rcases hlog with hl | hl
      · exact ⟨ext, by rw [show runTrace (e :: rest) w = runTrace rest (step e w)
          from rfl, hext, hl], hall⟩
      · refine ⟨vid :: ext, ?_, ?_⟩
        · rw [show runTrace (e :: rest) w = runTrace rest (step e w) from rfl,
            hext, hl, List.append_assoc]
          rfl
        · intro x hx
          rcases List.mem_cons.mp hx with hx | hx
          · exact hx
          · exact hall x hx

/-- Under quiescence, the submit's `clearTimeout` removes every live
timer. -/
theorem clearRefTimer_of_quiescent (w : World) (hq : Quiescent w) :
    clearRefTimer w = [] := by
  obtain ⟨-, ht⟩ := hq
  cases hr : w.pollRef with
  | none =>
      have hnil : w.timers = [] := by
        cases htimers : w.timers with
        | nil => rfl
        | cons t rest =>
            have := ht t (by simp [htimers])
            rw [hr] at this
            cases this
      simp [clearRefTimer, hr, hnil]
  | some hdl =>
      simp only [clearRefTimer, hr]
      rw [List.filter_eq_nil_iff]
      intro t htm
      have := ht t htm
      rw [hr] at this
      simp at this
      simp [this]

/-- C1 (amended): a new submit cancels the prior poll schedule (after the
submit no timer is pending and only the new generation's initial tick is
outstanding), and — provided no poll tick of the old generation is in
flight (suspended at a network await) at submit time — every state write a
poll task performs afterwards is attributable to the new generation's id.
(Without the in-flight proviso the claim fails: see the counterexample.) -/
theorem c1_submit_cancels_poll (w : World) (key prompt : String)
    (opts : GenOptions) (rimg : Option String) (vid : String)
    (evts : List Event) (hq : Quiescent w)
    (hevts : ∀ e ∈ evts, e.isSubmit = false) :
    (step (.submit (some key) prompt opts rimg (.ok vid)) w).timers = [] ∧
    (step (.submit (some key) prompt opts rimg (.ok vid)) w).tasks =
      [(vid, .awaitingStatus)] ∧
    ∃ ext,
      (runTrace evts
        (step (.submit (some key) prompt opts rimg (.ok vid)) w)).log =
        (step (.submit (some key) prompt opts rimg (.ok vid)) w).log ++ ext ∧
      ∀ x ∈ ext, x = vid := by
  have htimers : (step (.submit (some key) prompt opts rimg (.ok vid)) w).timers
      = [] := by
    simp [step, clearRefTimer_of_quiescent w hq]
  have htasks : (step (.submit (some key) prompt opts rimg (.ok vid)) w).tasks
      = [(vid, .awaitingStatus)] := by
    simp [step, hq.1]
  have honly : OnlyGen vid (step (.submit (some key) prompt opts rimg (.ok vid)) w) := by
    constructor
    · intro p hp
      rw [htasks] at hp
      rw [List.mem_singleton.mp hp]
    · intro q hq2
      rw [htimers] at hq2
      cases hq2
  exact ⟨htimers, htasks,
    (runTrace_onlyGen vid evts
      (step (.submit (some key) prompt opts rimg (.ok vid)) w) hevts honly).2⟩

/-- Witness for C1 (amended): a quiescent world with generation v1 polling
on a scheduled timer, a submit for v2, then two further poll events. -/
theorem c1_submit_cancels_poll_witness :
    Quiescent { ctrl := { initialVideoState with
                  id := some "v1", status := "in_progress" }
                timers := [(0, "v1")]
                pollRef := some 0
                urlRef := none
                tasks := []
                nextHandle := 1
                log := [] } ∧
    (∀ e ∈ ([.fireTimer 0,
        .resolveStatus 0 (.ok "in_progress" (some 50) none)] : List Event),
      e.isSubmit = false) ∧
    (step (.submit (some "sk") "p2" defaultOptions none (.ok "v2"))
      { ctrl := { initialVideoState with
          id := some "v1", status := "in_progress" }
        timers := [(0, "v1")]
        pollRef := some 0
        urlRef := none
        tasks := []
        nextHandle := 1
        log := [] }).timers = [] := by
  refine ⟨by constructor <;> decide, by decide, ?_⟩
  exact (c1_submit_cancels_poll
    { ctrl := { initialVideoState with id := some "v1", status := "in_progress" }
      timers := [(0, "v1")]
      pollRef := some 0
      urlRef := none
      tasks := []
      nextHandle := 1
      log := [] }
    "sk" "p2" defaultOptions none "v2"
    [.fireTimer 0, .resolveStatus 0 (.ok "in_progress" (some 50) none)]
    (by constructor <;> decide) (by decide)).1

/-- C7 (amended): for every positive source size (w, h) and target
(tw, th), `resizeImage` produces a canvas of exactly the target pixel
dimensions, scales by `max(tw/w, th/h)` preserving aspect ratio, draws the
scaled image centered, and the scaled image covers the whole black-filled
canvas — overflow is cropped and no black letterboxing is ever visible.
(The claim's "black letterboxing where aspect ratios differ" fails: see
the counterexample at the claim's own 640×480 → 1280×720 instance.) -/
theorem c7_resize_cover_fit (w h tw th : ℚ) (hw : 0 < w) (hh : 0 < h)
    (htw : 0 < tw) (hth : 0 < th) :
    (resizeGeometry w h tw th).canvasW = tw ∧
    (resizeGeometry w h tw th).canvasH = th ∧
    (resizeGeometry w h tw th).scale = max (tw / w) (th / h) ∧
    (resizeGeometry w h tw th).drawX =
      (tw - (resizeGeometry w h tw th).drawW) / 2 ∧
    (resizeGeometry w h tw th).drawY =
      (th - (resizeGeometry w h tw th).drawH) / 2 ∧
    tw ≤ (resizeGeometry w h tw th).drawW ∧
    th ≤ (resizeGeometry w h tw th).drawH ∧
    ¬ hasLetterbox (resizeGeometry w h tw th) := by
  have hdW : (resizeGeometry w h tw th).drawW = w * max (tw / w) (th / h) :=
    rfl
  have hdH : (resizeGeometry w h tw th).drawH = h * max (tw / w) (th / h) :=
    rfl
  have hdX : (resizeGeometry w h tw th).drawX =
      (tw - w * max (tw / w) (th / h)) / 2 := rfl
  have hdY : (resizeGeometry w h tw th).drawY =
      (th - h * max (tw / w) (th / h)) / 2 := rfl
  have hcW : (resizeGeometry w h tw th).canvasW = tw := rfl
  have hcH : (resizeGeometry w h tw th).canvasH = th := rfl
  have h1 : tw ≤ w * max (tw / w) (th / h) := by
    have hle : tw / w ≤ max (tw / w) (th / h) := le_max_left _ _
    have hmul := mul_le_mul_of_nonneg_left hle (le_of_lt hw)
    have heq : w * (tw / w) = tw := by field_simp
    linarith
  have h2 : th ≤ h * max (tw / w) (th / h) := by
    have hle : th / h ≤ max (tw / w) (th / h) := le_max_right _ _
    have hmul := mul_le_mul_of_nonneg_left hle (le_of_lt hh)
    have heq : h * (th / h) = th := by field_simp
    linarith
  refine ⟨hcW, hcH, rfl, rfl, rfl, ?_, ?_, ?_⟩
  · rw [hdW]; exact h1
  · rw [hdH]; exact h2
  · intro hlb
    unfold hasLetterbox at hlb
    rw [hdX, hdY, hdW, hdH, hcW, hcH] at hlb
    rcases hlb with h3 | h3 | h3 | h3 <;> linarith

/-- Witness for C7 (amended) at the 640×480 source and 1280×720 target. -/
theorem c7_resize_cover_fit_witness :
    ((0 : ℚ) < 640 ∧ (0 : ℚ) < 480 ∧ (0 : ℚ) < 1280 ∧ (0 : ℚ) < 720) ∧
    ¬ hasLetterbox (resizeGeometry 640 480 1280 720) := by
  refine ⟨⟨by norm_num, by norm_num, by norm_num, by norm_num⟩, ?_⟩
  exact (c7_resize_cover_fit 640 480 1280 720 (by norm_num) (by norm_num)
    (by norm_num) (by norm_num)).2.2.2.2.2.2.2

/-- C7 (counterexample): at the claim's own instance — a 640×480 source
(aspect ratio 4:3) against target 1280×720 (16:9) — the output is exactly
1280×720 but the cover-fit draw (scale 2, drawn at y = −120 with height
960) covers the entire canvas: no black letterboxing is visible, the
overflow is cropped instead. -/
theorem c7_letterbox_counterexample :
    (640 : ℚ) / 480 ≠ 1280 / 720 ∧
    (resizeGeometry 640 480 1280 720).canvasW = 1280 ∧
    (resizeGeometry 640 480 1280 720).canvasH = 720 ∧
    (resizeGeometry 640 480 1280 720).scale = 2 ∧
    (resizeGeometry 640 480 1280 720).drawX = 0 ∧
    (resizeGeometry 640 480 1280 720).drawY = -120 ∧
    (resizeGeometry 640 480 1280 720).drawW = 1280 ∧
    (resizeGeometry 640 480 1280 720).drawH = 960 ∧
    ¬ hasLetterbox (resizeGeometry 640 480 1280 720) := by
  refine ⟨by norm_num, ?_, ?_, ?_, ?_, ?_, ?_, ?_, ?_⟩ <;>
    simp [resizeGeometry, hasLetterbox] <;> norm_num

/-- Witness for C10 at the out-of-enum status string "cancelled". -/
theorem c10_nonterminal_status_verbatim_witness :
    ("cancelled" ≠ "completed" ∧ "cancelled" ≠ "failed") ∧
    (pollTick "v1" (.ok "cancelled" (some 10) none) (.httpError 0)
      initialController).ctrl.video.status = "cancelled" := by
  refine ⟨⟨by decide, by decide⟩, ?_⟩
  exact (c10_nonterminal_status_verbatim initialController "v1" "cancelled"
    (some 10) none (.httpError 0) 0 none "x" (by decide) (by decide)).1

end SoraStream
